import Mathlib

/-!
Verification of the task-registry CRUD contract of the repository
`claude-code-skills-lab`. The authoritative handlers are those of
`class_4_project/my-project/main.py` (the most complete variant); the
`class_4/my-project/main.py` and `class_3/fastapihelloworld/main.py`
variants are embedded where a claim cites them. The handlers delegate
storage to an external SQL session/engine (sqlmodel); that storage layer
is not code of this repository, so its contract (primary-key lookup,
autoincrement id allocation with a monotone counter) is modelled from the
spec, and everything the handlers themselves do (validation shape,
lookup-then-404, field assignment, deletion) is translated from the
source.
-/

set_option autoImplicit false

namespace TaskApi

/-- A stored task row: the `Task` model of
`class_4_project/my-project/main.py` lines 18-22 (`id` primary key,
`title : str`, `description : str`, `completed : bool = False`) once the
row is held by the storage, where the primary key is a concrete integer. -/
structure TaskRow where
  id : Int
  title : String
  description : String
  completed : Bool
deriving Repr, DecidableEq

/-- A validated request body for the `Task` model of
`class_4_project/my-project/main.py` lines 18-22: `id : int | None`
defaults to `None`, `title` and `description` are required strings, and
`completed` defaults to `False`. -/
structure TaskIn where
  id : Option Int := none
  title : String
  description : String
  completed : Bool := false
deriving Repr, DecidableEq

/-- Errors surfaced by the handlers: `notFound` is the
`HTTPException(status_code=404, detail="Task not found")` raised on a
missed lookup; `integrityError` is the database error raised when an
insert carries a primary key that is already present. -/
inductive ApiError where
  | notFound
  | integrityError
deriving Repr, DecidableEq

/-- The storage state behind the handlers: the rows of the `task` table in
insertion order together with the autoincrement counter of the `id`
primary-key column. -/
structure DB where
  rows : List TaskRow
  counter : Int
deriving Repr, DecidableEq

/-- A fresh storage state: no rows, counter at zero. -/
def DB.empty : DB := ⟨[], 0⟩

/-- Primary-key lookup, the meaning of `session.get(Task, task_id)`:
the row whose `id` equals `task_id`, if any. -/
def sessionGet (db : DB) (i : Int) : Option TaskRow :=
  db.rows.find? (fun r => r.id == i)

/-- Modelled from the spec: the id allocation performed by the external
DB/session layer (`session.add` + `session.commit` + `session.refresh`),
which is not code of this repository. Per the spec, the registry
"allocates the next id (current counter + 1, then increments the
counter)" when the incoming task carries no id, and "the registry's
internal counter only increases; it is never decremented even after
deletions". When the incoming task does carry an explicit id (the pydantic
model admits one), the row is inserted under that primary key, the insert
fails on a duplicate key, and the counter is raised to the explicit id
when that id exceeds it, keeping the counter monotone. -/
def sessionAdd (db : DB) (t : TaskIn) : Except ApiError (DB × TaskRow) :=
  match t.id with
  | none =>
      let row : TaskRow := ⟨db.counter + 1, t.title, t.description, t.completed⟩
      .ok (⟨db.rows ++ [row], db.counter + 1⟩, row)
  | some i =>
      if (sessionGet db i).isSome then
        .error .integrityError
      else
        let row : TaskRow := ⟨i, t.title, t.description, t.completed⟩
        .ok (⟨db.rows ++ [row], max db.counter i⟩, row)

/-- `add_task` (`class_4_project/my-project/main.py` lines 43-48): add the
incoming task, commit, refresh, return the stored row. Each handler
returns the resulting storage state together with its HTTP-level result. -/
def add_task (db : DB) (task : TaskIn) : DB × Except ApiError TaskRow :=
  match sessionAdd db task with
  | .ok (db1, row) => (db1, .ok row)
  | .error e => (db, .error e)

/-- `get_tasks` (`class_4_project/my-project/main.py` lines 52-55):
`session.exec(select(Task)).all()` — every row of the table. The SELECT
order is the storage's; modelled from the spec as "all tasks in creation
order (insertion order)". -/
def get_tasks (db : DB) : DB × Except ApiError (List TaskRow) :=
  (db, .ok db.rows)

/-- `get_task` (`class_4_project/my-project/main.py` lines 59-64): look the
row up by primary key; raise 404 "Task not found" when the lookup misses,
otherwise return the row. -/
def get_task (db : DB) (task_id : Int) : DB × Except ApiError TaskRow :=
  match sessionGet db task_id with
  | none => (db, .error .notFound)
  | some t => (db, .ok t)

/-- `update_task` (`class_4_project/my-project/main.py` lines 68-80): look
the row up by primary key, raise 404 on a miss; otherwise overwrite its
`title`, `description` and `completed` with the body's values (the body's
`id` field is never read), commit, and return the row. Mutating the row
found under the primary key rewrites the row with that key in the table. -/
def update_task (db : DB) (task_id : Int) (updated_task : TaskIn) :
    DB × Except ApiError TaskRow :=
  match sessionGet db task_id with
  | none => (db, .error .notFound)
  | some t =>
      let t1 : TaskRow :=
        ⟨t.id, updated_task.title, updated_task.description, updated_task.completed⟩
      (⟨db.rows.map (fun r => if r.id == task_id then t1 else r), db.counter⟩, .ok t1)

/-- `mark_task` (`class_4_project/my-project/main.py` lines 84-93): look
the row up by primary key, raise 404 on a miss; otherwise set
`completed = True`, commit, and return the row. -/
def mark_task (db : DB) (task_id : Int) : DB × Except ApiError TaskRow :=
  match sessionGet db task_id with
  | none => (db, .error .notFound)
  | some t =>
      let t1 : TaskRow := ⟨t.id, t.title, t.description, true⟩
      (⟨db.rows.map (fun r => if r.id == task_id then t1 else r), db.counter⟩, .ok t1)

/-- `delete_task` (`class_4_project/my-project/main.py` lines 97-105): look
the row up by primary key, raise 404 on a miss; otherwise delete that row
(`session.delete` removes the row under that primary key) and return the
confirmation message. -/
def delete_task (db : DB) (task_id : Int) : DB × Except ApiError String :=
  match sessionGet db task_id with
  | none => (db, .error .notFound)
  | some _ =>
      (⟨db.rows.filter (fun r => r.id != task_id), db.counter⟩,
       .ok "Task delete successfully")

/-- The registry `create(title, description?)` of the spec: a POST /tasks
whose body carries only `title` and `description`, so pydantic fills in
the defaults of the `Task` model (`id = None`, `completed = False`,
`class_4_project/my-project/main.py` lines 18-22) before `add_task` runs. -/
def create (db : DB) (title description : String) : DB × Except ApiError TaskRow :=
  add_task db { id := none, title := title, description := description, completed := false }

/-- Well-formedness of a storage state, established by `DB.empty` and kept
by every handler: primary keys are pairwise distinct, the counter is
non-negative, and the counter bounds every id ever seen (the primary-key
uniqueness is the SQL constraint; the counter facts are the spec's
"monotonically increasing counter" contract of the storage layer). -/
def WF (db : DB) : Prop :=
  (db.rows.map (fun r => r.id)).Nodup ∧ 0 ≤ db.counter ∧ ∀ r ∈ db.rows, r.id ≤ db.counter

instance (db : DB) : Decidable (WF db) := by
  unfold WF; infer_instance

/-- A raw JSON request body for a task, before pydantic validation: each
field is either present with a value or absent. -/
structure TaskBody where
  id : Option Int := none
  title : Option String := none
  description : Option String := none
  completed : Option Bool := none
deriving Repr, DecidableEq

/-- A pydantic validation failure: a required field is missing from the
request body. -/
inductive ValidationError where
  | missingField
deriving Repr, DecidableEq

/-- Pydantic validation of a request body against the `Task` model of
`class_4_project/my-project/main.py` lines 18-22: `title : str` and
`description : str` are required (a body lacking either is rejected, but
any present string — the empty string included — passes, the model
declaring no length constraint); `id : int | None` defaults to `None` and
`completed : bool` defaults to `False` when absent. -/
def validateTaskC4p (b : TaskBody) : Except ValidationError TaskIn :=
  match b.title, b.description with
  | some t, some d =>
      .ok { id := b.id, title := t, description := d, completed := b.completed.getD false }
  | _, _ => .error .missingField

/-- A validated body for the `Task` model of
`class_4/my-project/main.py` lines 14-17: `id : int | None` defaults to
`None`, `title : str` is required, `description : str | None` defaults to
`None`; the model has no `completed` field. -/
structure TaskC4 where
  id : Option Int := none
  title : String
  description : Option String := none
deriving Repr, DecidableEq

/-- Pydantic validation against the `class_4` `Task` model
(`class_4/my-project/main.py` lines 14-17): only `title` is required;
`description` may be entirely absent and then defaults to `None`. -/
def validateTaskC4 (b : TaskBody) : Except ValidationError TaskC4 :=
  match b.title with
  | some t => .ok { id := b.id, title := t, description := b.description }
  | none => .error .missingField

/-- A stored row of the `class_4` variant: concrete primary key, required
title, optional description. -/
structure TaskRowC4 where
  id : Int
  title : String
  description : Option String
deriving Repr, DecidableEq

/-- `get_task` of `class_4/my-project/main.py` lines 44-47: it returns
`session.get(Task, task_id)` directly — on a miss that is `None`, sent to
the caller as a null body with no 404 and no error signal. -/
def get_task_c4 (rows : List TaskRowC4) (task_id : Int) : Option TaskRowC4 :=
  rows.find? (fun r => r.id == task_id)

/-- The request body of the `class_3` variant
(`class_3/fastapihelloworld/main.py` lines 8-11): `id` and `task`
required, `time_estimate` optional. -/
structure TodoItem where
  id : Int
  task : String
  time_estimate : Option Int := none
deriving Repr, DecidableEq

/-- The response model of the `class_3` variant
(`class_3/fastapihelloworld/main.py` lines 14-18). -/
structure TodoItemResponse where
  id : Int
  task : String
  time_estimate : Option Int := none
  completed : Bool := false
deriving Repr, DecidableEq

/-- `add_todo` of `class_3/fastapihelloworld/main.py` lines 37-40: builds
`TodoItemResponse(**todo.dict(), completed=True)` — it echoes the
caller-supplied fields (the caller's id included), sets `completed=True`,
and stores nothing. -/
def add_todo (todo : TodoItem) : TodoItemResponse :=
  ⟨todo.id, todo.task, todo.time_estimate, true⟩

/-! ### List helper lemmas, shared by the claim proofs -/

theorem find?_append_of_none {α : Type} (p : α → Bool) (l l' : List α)
    (h : l.find? p = none) : (l ++ l').find? p = l'.find? p := by
  induction l with
  | nil => simp
  | cons a l ih =>
      rw [List.find?_cons] at h
      cases hpa : p a with
      | true => simp [hpa] at h
      | false =>
          simp only [hpa] at h
          simpa [List.find?_cons, hpa] using ih h

theorem find?_map_of_pres {α : Type} (f : α → α) (p : α → Bool)
    (hf : ∀ a, p (f a) = p a) (l : List α) :
    (l.map f).find? p = (l.find? p).map f := by
  induction l with
  | nil => simp
  | cons a l ih =>
      cases hpa : p a with
      | true => simp [List.find?_cons, hf, hpa]
      | false => simpa [List.find?_cons, hf, hpa] using ih

theorem find?_filter_of_imp {α : Type} (p q : α → Bool) (l : List α)
    (h : ∀ a, p a = true → q a = true) :
    (l.filter q).find? p = l.find? p := by
  induction l with
  | nil => simp
  | cons a l ih =>
      cases hqa : q a with
      | true => simp [List.filter_cons, hqa, List.find?_cons, ih]
      | false =>
          have hpa : p a = false := by
            cases hpa : p a with
            | false => rfl
            | true => rw [h a hpa] at hqa; cases hqa
          simp [List.filter_cons, hqa, List.find?_cons, hpa, ih]

theorem sessionGet_eq_none_iff (db : DB) (i : Int) :
    sessionGet db i = none ↔ ∀ r ∈ db.rows, r.id ≠ i := by
  simp [sessionGet, List.find?_eq_none]

theorem sessionGet_gt_counter (db : DB) (h : WF db) (i : Int)
    (hi : db.counter < i) : sessionGet db i = none := by
  rw [sessionGet_eq_none_iff]
  intro r hr
  have := h.2.2 r hr
  omega

theorem WF_empty : WF DB.empty := by
  constructor
  · simp [DB.empty]
  · constructor
    · simp [DB.empty]
    · intro r hr; simp [DB.empty] at hr

theorem WF_add_task (db : DB) (t : TaskIn) (h : WF db) : WF (add_task db t).1 := by
  obtain ⟨hnd, hc, hb⟩ := h
  cases ht : t.id with
  | none =>
      simp only [add_task, sessionAdd, ht]
      refine ⟨?_, ?_, ?_⟩
      · simp only [List.map_append, List.map_cons, List.map_nil]
        rw [List.nodup_append]
        refine ⟨hnd, List.nodup_singleton _, ?_⟩
        intro x hx hx'
        simp only [List.mem_singleton] at hx'
        obtain ⟨r, hr, hrx⟩ := List.mem_map.mp hx
        have := hb r hr
        omega
      · show (0 : Int) ≤ db.counter + 1
        omega
      · intro r hr
        show r.id ≤ db.counter + 1
        rcases List.mem_append.mp hr with hr | hr
        · have := hb r hr; omega
        · simp only [List.mem_singleton] at hr; subst hr; simp
  | some i =>
      by_cases hg : (sessionGet db i).isSome
      · simp only [add_task, sessionAdd, ht, hg, if_true]
        exact ⟨hnd, hc, hb⟩
      · have habs : sessionGet db i = none := by
          cases hgg : sessionGet db i with
          | none => rfl
          | some t0 => rw [hgg] at hg; simp at hg
        rw [sessionGet_eq_none_iff] at habs
        simp only [add_task, sessionAdd, ht, hg, if_false, Bool.false_eq_true]
        refine ⟨?_, ?_, ?_⟩
        · simp only [List.map_append, List.map_cons, List.map_nil]
          rw [List.nodup_append]
          refine ⟨hnd, List.nodup_singleton _, ?_⟩
          intro x hx hx'
          simp only [List.mem_singleton] at hx'
          obtain ⟨r, hr, hrx⟩ := List.mem_map.mp hx
          exact habs r hr (hrx.trans hx')
        · exact le_trans hc (le_max_left _ _)
        · intro r hr
          rcases List.mem_append.mp hr with hr | hr
          · exact le_trans (hb r hr) (le_max_left _ _)
          · simp only [List.mem_singleton] at hr; subst hr
            simp [le_max_right]

/-! ### Characterization lemmas for the handlers -/

theorem sessionGet_mk (rows : List TaskRow) (c : Int) (i : Int) :
    sessionGet ⟨rows, c⟩ i = rows.find? (fun r => r.id == i) := rfl

theorem add_task_of_id_none (db : DB) (t : TaskIn) (h : t.id = none) :
    add_task db t =
      (⟨db.rows ++ [⟨db.counter + 1, t.title, t.description, t.completed⟩], db.counter + 1⟩,
       .ok ⟨db.counter + 1, t.title, t.description, t.completed⟩) := by
  simp [add_task, sessionAdd, h]

theorem add_task_of_fresh_id (db : DB) (t : TaskIn) (i : Int) (h : t.id = some i)
    (habs : sessionGet db i = none) :
    add_task db t =
      (⟨db.rows ++ [⟨i, t.title, t.description, t.completed⟩], max db.counter i⟩,
       .ok ⟨i, t.title, t.description, t.completed⟩) := by
  simp [add_task, sessionAdd, h, habs]

theorem get_task_of_some (db : DB) (i : Int) (t : TaskRow) (h : sessionGet db i = some t) :
    get_task db i = (db, .ok t) := by
  simp [get_task, h]

theorem get_task_of_none (db : DB) (i : Int) (h : sessionGet db i = none) :
    get_task db i = (db, .error .notFound) := by
  simp [get_task, h]

theorem update_task_of_some (db : DB) (i : Int) (b : TaskIn) (t : TaskRow)
    (h : sessionGet db i = some t) :
    update_task db i b =
      (⟨db.rows.map (fun r =>
          if r.id == i then ⟨t.id, b.title, b.description, b.completed⟩ else r), db.counter⟩,
       .ok ⟨t.id, b.title, b.description, b.completed⟩) := by
  simp only [update_task, h]

theorem mark_task_of_some (db : DB) (i : Int) (t : TaskRow)
    (h : sessionGet db i = some t) :
    mark_task db i =
      (⟨db.rows.map (fun r =>
          if r.id == i then ⟨t.id, t.title, t.description, true⟩ else r), db.counter⟩,
       .ok ⟨t.id, t.title, t.description, true⟩) := by
  simp only [mark_task, h]

theorem delete_task_of_some (db : DB) (i : Int) (t : TaskRow)
    (h : sessionGet db i = some t) :
    delete_task db i =
      (⟨db.rows.filter (fun r => r.id != i), db.counter⟩, .ok "Task delete successfully") := by
  simp only [delete_task, h]

/-! ### Claim theorems -/

/-- C3: `create(title, description?)` allocates the next id (current
counter + 1, incrementing the counter), stores a Task whose `completed`
flag is false, and returns a snapshot of the stored Task; in particular
the first create on a fresh registry yields a task with id 1 and
`completed = false`. -/
theorem create_allocates_next_id_completed_false (db : DB) (title description : String) :
    create db title description =
      (⟨db.rows ++ [⟨db.counter + 1, title, description, false⟩], db.counter + 1⟩,
       .ok ⟨db.counter + 1, title, description, false⟩) ∧
    create DB.empty title description =
      (⟨[⟨1, title, description, false⟩], 1⟩, .ok ⟨1, title, description, false⟩) :=
  ⟨rfl, rfl⟩

/-- C8: `list()` never fails: it returns all tasks currently held by the
registry in creation (insertion) order, an empty sequence on an empty
registry, and after two creates it contains both tasks in creation
order. -/
theorem list_returns_all_in_insertion_order (db : DB) (t1 d1 t2 d2 : String) :
    get_tasks db = (db, .ok db.rows) ∧
    get_tasks DB.empty = (DB.empty, .ok []) ∧
    (get_tasks (create (create db t1 d1).1 t2 d2).1).2 =
      .ok (db.rows ++
        [⟨db.counter + 1, t1, d1, false⟩, ⟨db.counter + 1 + 1, t2, d2, false⟩]) := by
  refine ⟨rfl, rfl, ?_⟩
  simp [get_tasks, create, add_task, sessionAdd]

/-- C10: every mutating operation (`update`, `complete`, `delete`) checks
existence of the target id before mutating anything, so on a NotFound
failure the registry state is exactly what it was before the call. -/
theorem mutators_leave_state_unchanged_on_notfound (db : DB) (i : Int) (b : TaskIn)
    (h : sessionGet db i = none) :
    update_task db i b = (db, .error .notFound) ∧
    mark_task db i = (db, .error .notFound) ∧
    delete_task db i = (db, .error .notFound) := by
  refine ⟨?_, ?_, ?_⟩ <;> simp [update_task, mark_task, delete_task, h]

/-- Witness for C10: on a one-task registry, updating, completing and
deleting the absent id 999 each fail with NotFound and leave the state
untouched. -/
theorem mutators_leave_state_unchanged_on_notfound_witness :
    update_task ⟨[⟨1, "a", "b", false⟩], 1⟩ 999 ⟨none, "x", "y", true⟩ =
      (⟨[⟨1, "a", "b", false⟩], 1⟩, .error .notFound) ∧
    mark_task ⟨[⟨1, "a", "b", false⟩], 1⟩ 999 =
      (⟨[⟨1, "a", "b", false⟩], 1⟩, .error .notFound) ∧
    delete_task ⟨[⟨1, "a", "b", false⟩], 1⟩ 999 =
      (⟨[⟨1, "a", "b", false⟩], 1⟩, .error .notFound) :=
  mutators_leave_state_unchanged_on_notfound ⟨[⟨1, "a", "b", false⟩], 1⟩ 999
    ⟨none, "x", "y", true⟩ (by decide)

/-- C1 (amended): `get(id)` fails with NotFound exactly when no task with
that id exists, and on a hit it returns exactly a stored task with the
requested id (never a null-like or partially-filled record, never a silent
omission); when every task held by the registry has a positive id — as
when no caller ever supplies an id — `get` on a non-positive id fails
with NotFound. -/
theorem get_task_notfound_iff_absent (db : DB) (i : Int) :
    ((get_task db i).2 = .error .notFound ↔ sessionGet db i = none) ∧
    (∀ t, (get_task db i).2 = .ok t → t ∈ db.rows ∧ t.id = i) ∧
    ((∀ r ∈ db.rows, 0 < r.id) → i ≤ 0 → (get_task db i).2 = .error .notFound) := by
  refine ⟨?_, ?_, ?_⟩
  · cases h : sessionGet db i with
    | none => simp [get_task, h]
    | some t => simp [get_task, h]
  · intro t ht
    cases h : sessionGet db i with
    | none => simp [get_task, h] at ht
    | some t0 =>
        simp only [get_task, h, Except.ok.injEq] at ht
        subst ht
        refine ⟨List.mem_of_find?_eq_some h, ?_⟩
        have := List.find?_some h
        simpa using this
  · intro hpos hi
    cases h : sessionGet db i with
    | none => simp [get_task, h]
    | some t0 =>
        have hmem := List.mem_of_find?_eq_some h
        have hid : t0.id = i := by simpa using List.find?_some h
        have := hpos t0 hmem
        omega

/-- Witness for C1's theorem: on a one-task registry holding id 1, a
successful `get 1` returns that stored task, and `get 0` fails with
NotFound since all held ids are positive. -/
theorem get_task_notfound_iff_absent_witness :
    (⟨(1 : Int), "a", "b", false⟩ ∈ (⟨[⟨1, "a", "b", false⟩], 1⟩ : DB).rows ∧
      (⟨(1 : Int), "a", "b", false⟩ : TaskRow).id = 1) ∧
    (get_task ⟨[⟨1, "a", "b", false⟩], 1⟩ 0).2 = .error .notFound :=
  ⟨(get_task_notfound_iff_absent ⟨[⟨1, "a", "b", false⟩], 1⟩ 1).2.1
      ⟨1, "a", "b", false⟩ rfl,
   (get_task_notfound_iff_absent ⟨[⟨1, "a", "b", false⟩], 1⟩ 0).2.2
      (by decide) (by decide)⟩

/-- Counterexample for C1 as stated: `add_task` honors a caller-supplied
id, so after POSTing a task with id 0 to a fresh registry, id 0 is present
and `get 0` succeeds instead of failing with NotFound — a non-positive id
is not always absent. Moreover the `class_4` variant's `get_task` answers
a miss with a null-like `None` response instead of signalling NotFound. -/
theorem get_task_nonpositive_id_cex :
    (get_task (add_task DB.empty ⟨some 0, "t", "d", false⟩).1 0).2 =
      .ok ⟨0, "t", "d", false⟩ ∧
    get_task_c4 [] 999 = none := by
  exact ⟨rfl, rfl⟩

/-- C4: `complete(id)` sets `completed = true` unconditionally and is
idempotent: for every existing task, completing twice in a row yields
`completed = true` both times with no error on the second call; it fails
with NotFound when the id does not exist. -/
theorem complete_sets_true_and_idempotent (db : DB) (i : Int) :
    (sessionGet db i = none → mark_task db i = (db, .error .notFound)) ∧
    (∀ t, sessionGet db i = some t →
      (mark_task db i).2 = .ok ⟨t.id, t.title, t.description, true⟩ ∧
      (mark_task (mark_task db i).1 i).2 = .ok ⟨t.id, t.title, t.description, true⟩) := by
  constructor
  · intro h; simp [mark_task, h]
  · intro t h
    have hid : (t.id == i) = true := by simpa using List.find?_some h
    have hpres : ∀ a : TaskRow,
        (((fun r => if r.id == i then (⟨t.id, t.title, t.description, true⟩ : TaskRow) else r) a).id == i)
          = (a.id == i) := by
      intro a
      by_cases ha : (a.id == i) = true
      · simp [ha, hid]
      · simp [ha]
    rw [mark_task_of_some db i t h]
    refine ⟨rfl, ?_⟩
    have h2 : sessionGet
        (⟨db.rows.map (fun r =>
            if r.id == i then ⟨t.id, t.title, t.description, true⟩ else r),
          db.counter⟩ : DB) i = some ⟨t.id, t.title, t.description, true⟩ := by
      rw [sessionGet_mk, find?_map_of_pres _ _ hpres]
      have hfind : db.rows.find? (fun r => r.id == i) = some t := h
      have hid2 : t.id = i := by simpa using hid
      rw [hfind]
      simp [hid2]
    rw [mark_task_of_some _ i _ h2]

/-- Witness for C4: completing the sole task of a one-task registry twice
yields `completed = true` both times, with no error on the second call. -/
theorem complete_sets_true_and_idempotent_witness :
    (mark_task ⟨[⟨1, "a", "b", false⟩], 1⟩ 1).2 = .ok ⟨1, "a", "b", true⟩ ∧
    (mark_task (mark_task ⟨[⟨1, "a", "b", false⟩], 1⟩ 1).1 1).2 =
      .ok ⟨1, "a", "b", true⟩ :=
  (complete_sets_true_and_idempotent ⟨[⟨1, "a", "b", false⟩], 1⟩ 1).2
    ⟨1, "a", "b", false⟩ rfl

/-- C5: for every existing task, `update(id, title, description?,
completed?)` replaces the task's title, description and completed content
while its id stays unchanged, every other task in the registry stays
unchanged (same position, same content, same counter, same number of
tasks), and the returned snapshot is the stored row; `update` fails with
NotFound when the id does not exist. -/
theorem update_replaces_content_preserves_rest (db : DB) (i : Int) (b : TaskIn) :
    (sessionGet db i = none → update_task db i b = (db, .error .notFound)) ∧
    (∀ t, sessionGet db i = some t →
      (update_task db i b).2 = .ok ⟨i, b.title, b.description, b.completed⟩ ∧
      (⟨i, b.title, b.description, b.completed⟩ : TaskRow) ∈ (update_task db i b).1.rows ∧
      (update_task db i b).1.counter = db.counter ∧
      (update_task db i b).1.rows.length = db.rows.length ∧
      (∀ (k : Nat) (r : TaskRow), db.rows[k]? = some r → r.id ≠ i →
        (update_task db i b).1.rows[k]? = some r) ∧
      (∀ (k : Nat) (r : TaskRow), db.rows[k]? = some r → r.id = i →
        (update_task db i b).1.rows[k]? =
          some ⟨i, b.title, b.description, b.completed⟩)) := by
  constructor
  · intro h; simp [update_task, h]
  · intro t h
    have hid2 : t.id = i := by simpa using List.find?_some h
    rw [update_task_of_some db i b t h]
    subst hid2
    refine ⟨rfl, ?_, rfl, by simp, ?_, ?_⟩
    · exact List.mem_map.mpr ⟨t, List.mem_of_find?_eq_some h, by simp⟩
    · intro k r hk hne
      show (db.rows.map _)[k]? = some r
      rw [List.getElem?_map, hk]
      simp [hne]
    · intro k r hk heq
      show (db.rows.map _)[k]? = some ⟨t.id, b.title, b.description, b.completed⟩
      rw [List.getElem?_map, hk]
      simp [heq]

/-- Witness for C5: updating the first task of a two-task registry
replaces its content, keeps its id, and leaves the second task in place. -/
theorem update_replaces_content_preserves_rest_witness :
    (update_task ⟨[⟨1, "a", "b", false⟩, ⟨2, "c", "d", false⟩], 2⟩ 1
        ⟨none, "x", "y", true⟩).2 = .ok ⟨1, "x", "y", true⟩ ∧
    (update_task ⟨[⟨1, "a", "b", false⟩, ⟨2, "c", "d", false⟩], 2⟩ 1
        ⟨none, "x", "y", true⟩).1.rows[1]? = some ⟨2, "c", "d", false⟩ := by
  have h := (update_replaces_content_preserves_rest
    ⟨[⟨1, "a", "b", false⟩, ⟨2, "c", "d", false⟩], 2⟩ 1 ⟨none, "x", "y", true⟩).2
    ⟨1, "a", "b", false⟩ rfl
  exact ⟨h.1, h.2.2.2.2.1 1 ⟨2, "c", "d", false⟩ rfl (by decide)⟩

/-- C6: after `delete(id)` succeeds it returns the confirmation message,
`get(id)` fails with NotFound, the deleted task is absent from `list()`,
and the deletion has no further observable side effect: the counter is
untouched, every other task is still present, and `get` on any other id
answers as before; `delete` fails with NotFound when the id does not
exist. -/
theorem delete_removes_visibility (db : DB) (i : Int) :
    (sessionGet db i = none → delete_task db i = (db, .error .notFound)) ∧
    (∀ t, sessionGet db i = some t →
      (delete_task db i).2 = .ok "Task delete successfully" ∧
      (get_task (delete_task db i).1 i).2 = .error .notFound ∧
      (∀ r ∈ (delete_task db i).1.rows, r.id ≠ i) ∧
      (delete_task db i).1.counter = db.counter ∧
      (∀ r ∈ db.rows, r.id ≠ i → r ∈ (delete_task db i).1.rows) ∧
      (∀ j : Int, j ≠ i → (get_task (delete_task db i).1 j).2 = (get_task db j).2)) := by
  constructor
  · intro h; simp [delete_task, h]
  · intro t h
    rw [delete_task_of_some db i t h]
    refine ⟨rfl, ?_, ?_, rfl, ?_, ?_⟩
    · have habs : sessionGet
          (⟨db.rows.filter (fun r => r.id != i), db.counter⟩ : DB) i = none := by
        rw [sessionGet_mk, List.find?_eq_none]
        intro x hx
        have := (List.mem_filter.mp hx).2
        simpa using this
      rw [get_task_of_none _ _ habs]
    · intro r hr
      have := (List.mem_filter.mp hr).2
      simpa using this
    · intro r hr hne
      exact List.mem_filter.mpr ⟨hr, by simpa using hne⟩
    · intro j hj
      have hsg : sessionGet
          (⟨db.rows.filter (fun r => r.id != i), db.counter⟩ : DB) j =
          sessionGet db j := by
        rw [sessionGet_mk]
        exact find?_filter_of_imp _ _ db.rows (by
          intro a ha
          have haj : a.id = j := by simpa using ha
          simp [haj, hj])
      cases hg : sessionGet db j with
      | none => rw [get_task_of_none _ _ (hsg.trans hg), get_task_of_none _ _ hg]
      | some t2 => rw [get_task_of_some _ _ _ (hsg.trans hg), get_task_of_some _ _ _ hg]

/-- Witness for C6: deleting task 1 from a two-task registry succeeds,
makes `get 1` fail with NotFound, and keeps task 2 present. -/
theorem delete_removes_visibility_witness :
    (delete_task ⟨[⟨1, "a", "b", false⟩, ⟨2, "c", "d", false⟩], 2⟩ 1).2 =
      .ok "Task delete successfully" ∧
    (get_task (delete_task ⟨[⟨1, "a", "b", false⟩, ⟨2, "c", "d", false⟩], 2⟩ 1).1 1).2 =
      .error .notFound ∧
    (⟨(2 : Int), "c", "d", false⟩ : TaskRow) ∈
      (delete_task ⟨[⟨1, "a", "b", false⟩, ⟨2, "c", "d", false⟩], 2⟩ 1).1.rows := by
  have h := (delete_removes_visibility
    ⟨[⟨1, "a", "b", false⟩, ⟨2, "c", "d", false⟩], 2⟩ 1).2 ⟨1, "a", "b", false⟩ rfl
  exact ⟨h.1, h.2.1, h.2.2.2.2.1 ⟨2, "c", "d", false⟩ (by decide) (by decide)⟩

/-- C7: round-trip — for every well-formed state, when `create` succeeds
and returns a task, `get` on that task's id returns exactly the task
`create` returned, and leaves the state untouched. -/
theorem create_get_roundtrip (db : DB) (t : TaskIn) (db1 : DB) (row : TaskRow)
    (hwf : WF db) (h : add_task db t = (db1, .ok row)) :
    get_task db1 row.id = (db1, .ok row) := by
  cases ht : t.id with
  | none =>
      rw [add_task_of_id_none db t ht] at h
      injection h with hdb hr
      injection hr with hr
      subst hdb
      subst hr
      show get_task _ (db.counter + 1) = _
      have habs : db.rows.find? (fun r => r.id == db.counter + 1) = none :=
        sessionGet_gt_counter db hwf (db.counter + 1) (by omega)
      have hsg : sessionGet
          (⟨db.rows ++ [⟨db.counter + 1, t.title, t.description, t.completed⟩],
            db.counter + 1⟩ : DB) (db.counter + 1) =
          some ⟨db.counter + 1, t.title, t.description, t.completed⟩ := by
        rw [sessionGet_mk, find?_append_of_none _ _ _ habs]
        simp
      rw [get_task_of_some _ _ _ hsg]
  | some i =>
      by_cases hp : (sessionGet db i).isSome
      · simp [add_task, sessionAdd, ht, hp] at h
      · have habs : sessionGet db i = none := Option.not_isSome_iff_eq_none.mp hp
        rw [add_task_of_fresh_id db t i ht habs] at h
        injection h with hdb hr
        injection hr with hr
        subst hdb
        subst hr
        show get_task _ i = _
        have hsg : sessionGet
            (⟨db.rows ++ [⟨i, t.title, t.description, t.completed⟩],
              max db.counter i⟩ : DB) i =
            some ⟨i, t.title, t.description, t.completed⟩ := by
          rw [sessionGet_mk, find?_append_of_none _ _ _ habs]
          simp
        rw [get_task_of_some _ _ _ hsg]

/-- Witness for C7: creating a task on a fresh registry and then getting
its id returns exactly the created task. -/
theorem create_get_roundtrip_witness :
    get_task ⟨[⟨1, "a", "b", false⟩], 1⟩ (1 : Int) =
      (⟨[⟨1, "a", "b", false⟩], 1⟩, .ok ⟨1, "a", "b", false⟩) :=
  create_get_roundtrip DB.empty ⟨none, "a", "b", false⟩
    ⟨[⟨1, "a", "b", false⟩], 1⟩ ⟨1, "a", "b", false⟩ (by decide) rfl

/-- C2 (amended): on a well-formed registry, a create that supplies no id
gets a registry-assigned id: the new id is `counter + 1`, positive, and
distinct from the id of every task already held (well-formedness —
pairwise-distinct ids included — is preserved); the internal counter is
incremented by create and never decremented by delete, update or
complete; and after create → delete → create (with no caller-supplied
ids) the two created tasks have different ids. (The code does, however,
honor a caller-supplied id at creation — see the counterexample.) -/
theorem registry_assigned_ids_unique_monotone (db : DB) (t u : TaskIn)
    (hwf : WF db) (ht : t.id = none) (hu : u.id = none) :
    (add_task db t).2 = .ok ⟨db.counter + 1, t.title, t.description, t.completed⟩ ∧
    0 < db.counter + 1 ∧
    (∀ r ∈ db.rows, r.id ≠ db.counter + 1) ∧
    WF (add_task db t).1 ∧
    (add_task db t).1.counter = db.counter + 1 ∧
    (∀ j : Int, (delete_task db j).1.counter = db.counter) ∧
    (∀ (j : Int) (b : TaskIn), (update_task db j b).1.counter = db.counter) ∧
    (∀ j : Int, (mark_task db j).1.counter = db.counter) ∧
    (add_task (delete_task (add_task db t).1 (db.counter + 1)).1 u).2 =
      .ok ⟨db.counter + 1 + 1, u.title, u.description, u.completed⟩ ∧
    db.counter + 1 + 1 ≠ db.counter + 1 := by
  obtain ⟨hnd, hc, hb⟩ := hwf
  refine ⟨?_, by omega, ?_, WF_add_task db t ⟨hnd, hc, hb⟩, ?_, ?_, ?_, ?_, ?_, by omega⟩
  · rw [add_task_of_id_none db t ht]
  · intro r hr
    have := hb r hr
    omega
  · rw [add_task_of_id_none db t ht]
  · intro j
    cases hg : sessionGet db j with
    | none => simp [delete_task, hg]
    | some t2 => rw [delete_task_of_some db j t2 hg]
  · intro j b
    cases hg : sessionGet db j with
    | none => simp [update_task, hg]
    | some t2 => rw [update_task_of_some db j b t2 hg]
  · intro j
    cases hg : sessionGet db j with
    | none => simp [mark_task, hg]
    | some t2 => rw [mark_task_of_some db j t2 hg]
  · rw [add_task_of_id_none db t ht]
    have habs : db.rows.find? (fun r => r.id == db.counter + 1) = none :=
      sessionGet_gt_counter db ⟨hnd, hc, hb⟩ (db.counter + 1) (by omega)
    have hsg : sessionGet
        (⟨db.rows ++ [⟨db.counter + 1, t.title, t.description, t.completed⟩],
          db.counter + 1⟩ : DB) (db.counter + 1) =
        some ⟨db.counter + 1, t.title, t.description, t.completed⟩ := by
      rw [sessionGet_mk, find?_append_of_none _ _ _ habs]
      simp
    rw [delete_task_of_some _ _ _ hsg, add_task_of_id_none _ u hu]

/-- Witness for C2's theorem: on a fresh registry the first id-less create
is assigned id 1, and after create → delete → create the second create is
assigned id 2. -/
theorem registry_assigned_ids_unique_monotone_witness :
    (add_task DB.empty ⟨none, "a", "b", false⟩).2 = .ok ⟨1, "a", "b", false⟩ ∧
    (add_task (delete_task (add_task DB.empty ⟨none, "a", "b", false⟩).1 1).1
        ⟨none, "c", "d", true⟩).2 = .ok ⟨2, "c", "d", true⟩ := by
  have h := registry_assigned_ids_unique_monotone DB.empty
    ⟨none, "a", "b", false⟩ ⟨none, "c", "d", true⟩ (by decide) rfl rfl
  exact ⟨h.1, h.2.2.2.2.2.2.2.2.1⟩

/-- Counterexample for C2 as stated: `add_task` accepts the caller's task
verbatim, id included, so a caller-supplied id (7, or even the
non-positive 0) is honored at creation rather than replaced by a
registry-assigned one. -/
theorem caller_supplied_id_honored_cex :
    add_task DB.empty ⟨some 7, "t", "d", false⟩ =
      (⟨[⟨7, "t", "d", false⟩], 7⟩, .ok ⟨7, "t", "d", false⟩) ∧
    (add_task DB.empty ⟨some 0, "x", "y", false⟩).1.rows = [⟨0, "x", "y", false⟩] :=
  ⟨rfl, rfl⟩

/-- C9 (amended): create rejects a missing `title` with a validation
error, but an empty-but-present title passes (no emptiness check is
declared) and validation never fails for input carrying the required
fields; `description` is required by the `class_4_project` model, while in
the `class_4` model it is optional and may be entirely absent — a create
with no description at all succeeds there. -/
theorem title_required_empty_allowed (b : TaskBody) :
    (b.title = none → validateTaskC4p b = .error .missingField) ∧
    (b.title = none → validateTaskC4 b = .error .missingField) ∧
    (∀ t d, b.title = some t → b.description = some d →
      validateTaskC4p b = .ok ⟨b.id, t, d, b.completed.getD false⟩) ∧
    (∀ t, b.title = some t → validateTaskC4 b = .ok ⟨b.id, t, b.description⟩) ∧
    validateTaskC4 { title := some "New" } = .ok ⟨none, "New", none⟩ := by
  refine ⟨?_, ?_, ?_, ?_, rfl⟩
  · intro h
    cases hd : b.description <;> simp [validateTaskC4p, h, hd]
  · intro h
    simp [validateTaskC4, h]
  · intro t d h1 h2
    simp [validateTaskC4p, h1, h2]
  · intro t h1
    simp [validateTaskC4, h1]

/-- Witness for C9's theorem: a body with no title at all is rejected,
while a body whose title is the empty string (and description present)
passes validation. -/
theorem title_required_empty_allowed_witness :
    validateTaskC4p ⟨none, none, none, none⟩ = .error .missingField ∧
    validateTaskC4p ⟨none, some "", some "d", none⟩ = .ok ⟨none, "", "d", false⟩ :=
  ⟨(title_required_empty_allowed ⟨none, none, none, none⟩).1 rfl,
   (title_required_empty_allowed ⟨none, some "", some "d", none⟩).2.2.1 "" "d" rfl rfl⟩

/-- Counterexample for C9 as stated: the `class_4_project` model accepts
an empty-but-present title (no validation error), and rejects a create
with no description at all (`description : str` is required), so
"description may be entirely absent" fails on that variant. -/
theorem empty_title_accepted_cex :
    validateTaskC4p ⟨none, some "", some "d", none⟩ = .ok ⟨none, "", "d", false⟩ ∧
    validateTaskC4p ⟨none, some "x", none, none⟩ = .error .missingField :=
  ⟨rfl, rfl⟩

end TaskApi
